import Mathlib

/-!
# Verification of the Kitchen Sink Lite MCP server (Node)

Shallow embedding of `src/kitchen_sink_server_node/src/server.ts` (the
"FIXED VERSION FOR RENDER DEPLOYMENT" document, whose line numbers the
claims cite) together with the legacy draft dispatcher from
`src/unnamed/part_000` ("FINAL LEGACY MODE").

Modelling conventions:
* JavaScript strings are Lean `String`s; URL pathnames are modelled as
  `List Char` so that the trailing-slash normalisation
  (`url.pathname.replace(/\/$/, "")`) can be reasoned about structurally.
* The `sessions` JavaScript `Map` is an association list `List (String ×
  SessionRecord)`; `Map.get/set/delete` become `mapGet/mapSet/mapDelete`.
* `SSEServerTransport` (third-party MCP SDK) generates a fresh UUID per
  stream via `crypto.randomUUID()`; this collision-free supply is modelled
  as an injective function `genId` of a counter carried in `ServerState`.
* Thrown JavaScript errors that the MCP SDK catches and converts into
  protocol-level error results (Zod parse failures, `new Error("Unknown
  tool: ...")`) are modelled with `Except`.
* `async`/`await` plays no role in the per-request logic being verified;
  each handler is embedded as a pure state-transformer.
-/

namespace KitchenSink

/-- HTTP request methods distinguished by the dispatcher
(`server.ts`, lines 376, 387, 394, 402). -/
inductive Method where
  | GET
  | POST
  | OPTIONS
  | other
deriving DecidableEq, Repr

/-- An HTTP status/body pair, as produced by `res.writeHead(s).end(body)`. -/
structure HttpResponse where
  status : Nat
  body : String
deriving DecidableEq, Repr

/-- JSON values, used for tool-call argument payloads. -/
inductive Json where
  | null
  | bool (b : Bool)
  | num (n : Int)
  | str (s : String)
  | arr (elems : List Json)
  | obj (fields : List (String × Json))

/-- Field lookup on a JSON object (`args.message` etc.); `none` models the
JavaScript `undefined` for a missing key or a non-object value. -/
def Json.lookup : Json → String → Option Json
  | .obj fields, key => List.lookup key fields
  | _, _ => none

/-- Result of `showParser.parse` (`server.ts` lines 133-137):
`z.object({ message: z.string(), accentColor: z.string().optional(),
details: z.string().optional() })`. -/
structure ShowArgs where
  message : String
  accentColor : Option String
  details : Option String

/-- Result of `refreshParser.parse` (`server.ts` lines 139-141):
`z.object({ message: z.string() })`. -/
structure RefreshArgs where
  message : String

/-- Zod `z.string().optional()` on one field of an object: absent ↦ `none`,
a string ↦ `some`, anything else present ↦ a type error. -/
def parseOptionalString (j : Json) (key : String) : Except String (Option String) :=
  match j.lookup key with
  | none => .ok none
  | some (.str s) => .ok (some s)
  | some _ => .error (key ++ ": Expected string")

/-- Zod `z.string()` on a required field of an object: absent ↦ the
`Required` issue, a non-string ↦ a type error. -/
def parseRequiredString (j : Json) (key : String) : Except String String :=
  match j.lookup key with
  | none => .error (key ++ ": Required")
  | some (.str s) => .ok s
  | some _ => .error (key ++ ": Expected string")

/-- Embeds `showParser.parse` (`server.ts` line 243). Zod's object parser strips
unknown keys and reports the first violated constraint by throwing; the
throw is modelled as `Except.error`. -/
def showParser (j : Json) : Except String ShowArgs :=
  match parseRequiredString j "message" with
  | .error e => .error e
  | .ok message =>
    match parseOptionalString j "accentColor" with
    | .error e => .error e
    | .ok accentColor =>
      match parseOptionalString j "details" with
      | .error e => .error e
      | .ok details => .ok ⟨message, accentColor, details⟩

/-- Embeds `refreshParser.parse` (`server.ts` line 268). -/
def refreshParser (j : Json) : Except String RefreshArgs :=
  match parseRequiredString j "message" with
  | .error e => .error e
  | .ok message => .ok ⟨message⟩

/-- Structured failures the Protocol Engine can produce: a Zod validation
failure (`InvalidArguments`) or the `new Error("Unknown tool: ...")` thrown
for an unregistered operation name (`OperationNotFound`).  Both are thrown
in the handler and converted by the MCP SDK into protocol error results
delivered over the owning stream. -/
inductive EngineError where
  | invalidArguments (description : String)
  | operationNotFound (name : String)

/-- A successful tool-call result: the human-readable `content` text plus
the machine-structured `structuredContent` payload. -/
structure CallToolResult where
  contentText : String
  structuredContent : Json

/-- The `CallToolRequestSchema` handler (`server.ts` lines 239-284),
dispatching on `request.params.name` with `request.params.arguments ?? {}`.
`now` models `new Date().toISOString()` (line 244). -/
def callToolHandler (name : String) (arguments? : Option Json) (now : String) :
    Except EngineError CallToolResult :=
  let args := arguments?.getD (Json.obj [])
  if name == "kitchen-sink-show" then
    match showParser args with
    | .error e => .error (.invalidArguments e)
    | .ok a =>
      let echoed := a.message.toUpper
      let accentColor := a.accentColor.getD "#2d6cdf"
      let details := a.details.getD
        ("Processed at " ++ now ++ ". Echo (uppercased): " ++ echoed ++ ".")
      .ok ⟨"Widget ready with message: " ++ a.message ++ " (processed " ++ now ++ ")",
        Json.obj [("message", .str a.message), ("accentColor", .str accentColor),
          ("details", .str details), ("fromTool", .str "kitchen-sink-show"),
          ("processedAt", .str now), ("echoed", .str echoed)]⟩
  else if name == "kitchen-sink-refresh" then
    match refreshParser args with
    | .error e => .error (.invalidArguments e)
    | .ok a =>
      .ok ⟨a.message,
        Json.obj [("message", .str a.message), ("accentColor", .str "#2d6cdf"),
          ("details", .str "Response returned from window.openai.callTool."),
          ("fromTool", .str "kitchen-sink-refresh")]⟩
  else
    .error (.operationNotFound name)

/-- One live session's server-visible state.  The real `SessionRecord`
holds the `Server` and `SSEServerTransport` objects; what the claims
observe of them is the sequence of operation results written to the
owning SSE stream, oldest first. -/
structure SessionRecord where
  stream : List (Except EngineError CallToolResult)

/-- The Stream Registry plus the fresh-identifier supply.  `sessions`
embeds the module-level `const sessions = new Map<string, SessionRecord>()`
(`server.ts` line 294); `nextId` indexes the modelled `crypto.randomUUID()`
supply of `SSEServerTransport`. -/
structure ServerState where
  sessions : List (String × SessionRecord)
  nextId : Nat

/-- The state at process start: empty registry. -/
def initState : ServerState := ⟨[], 0⟩

/-- Modelled from the SDK's contract: `SSEServerTransport` assigns each new
stream a fresh `crypto.randomUUID()`; we model the collision-free supply as
an injective map from the `nextId` counter (a nonempty string, so it can
never be confused with the falsy empty `sessionId`). -/
def genId (n : Nat) : String := String.mk (List.replicate (n + 1) 's')

/-- Embeds `sessions.get(k)` (`server.ts` line 343). -/
def mapGet (m : List (String × SessionRecord)) (k : String) : Option SessionRecord :=
  List.lookup k m

/-- Embeds `sessions.set(k, v)` (`server.ts` line 307): overwrite when the key is
present, otherwise insert. -/
def mapSet (m : List (String × SessionRecord)) (k : String) (v : SessionRecord) :
    List (String × SessionRecord) :=
  if m.any (fun p => p.1 == k) then
    m.map (fun p => if p.1 == k then (k, v) else p)
  else
    (k, v) :: m

/-- Embeds `sessions.delete(k)` (`server.ts` lines 310, 321): remove the entry if
present; a no-op on an absent key. -/
def mapDelete : List (String × SessionRecord) → String → List (String × SessionRecord)
  | [], _ => []
  | p :: t, k => if p.1 == k then mapDelete t k else p :: mapDelete t k

/-- Append an operation result to the SSE stream owned by session `k`
(the SDK's write of a dispatch result over the session's transport). -/
def appendToStream : List (String × SessionRecord) → String →
    Except EngineError CallToolResult → List (String × SessionRecord)
  | [], _, _ => []
  | p :: t, k, r =>
    (if p.1 == k then (p.1, ⟨p.2.stream ++ [r]⟩) else p) :: appendToStream t k r

/-- Outcome of the stream-open handler: the new state, the session
identifier the transport generated, and the synchronous HTTP response
(`none` when the long-lived stream stays open). -/
structure SseOutcome where
  state : ServerState
  sessionId : String
  response : Option HttpResponse

/-- Embeds `handleSseRequest` (`server.ts` lines 299-327).  The transport is
constructed (generating `sessionId`), the record is `set` into the
registry, then `server.connect(transport)` runs; on failure the entry is
deleted and, if headers were not already sent, a 500 is written.
`connectOk` models whether `await server.connect(transport)` succeeded and
`headersSent` models `res.headersSent` in the catch branch. -/
def handleSseRequest (st : ServerState) (connectOk : Bool) (headersSent : Bool) :
    SseOutcome :=
  let sessionId := genId st.nextId
  let inserted := mapSet st.sessions sessionId ⟨[]⟩
  if connectOk then
    ⟨⟨inserted, st.nextId + 1⟩, sessionId, none⟩
  else
    ⟨⟨mapDelete inserted sessionId, st.nextId + 1⟩, sessionId,
      if headersSent then none else some ⟨500, "Failed to establish SSE connection"⟩⟩

/-- Embeds `transport.onclose` (`server.ts` lines 309-312): the close handler
deletes the session's registry entry (and closes the per-session engine).
Deleting an absent key is a no-op, so re-running the close handler has no
further effect. -/
def closeSession (st : ServerState) (sessionId : String) : ServerState :=
  ⟨mapDelete st.sessions sessionId, st.nextId⟩

/-- An operation request as submitted in a message-submit POST body:
`{ name, arguments }` of a `tools/call`. -/
structure OperationRequest where
  name : String
  arguments : Option Json

/-- Outcome of the message-submit handler. `engineInvoked` records whether
the payload was forwarded into the session's Protocol Engine
(`session.transport.handlePostMessage(req, res)`, line 351). -/
structure RouteResult where
  state : ServerState
  response : Option HttpResponse
  engineInvoked : Bool

/-- Embeds `handlePostMessage` (`server.ts` lines 329-358).
`url.searchParams.get("sessionId")` is `none` when the parameter is absent;
the JavaScript falsy test `if (!sessionId)` also catches the empty string.
On a registered session the SDK parses the body, dispatches it into the
engine (`callToolHandler`), writes the result — success or structured
failure — onto the owning SSE stream, and acknowledges the POST with
202 Accepted. -/
def handlePostMessage (st : ServerState) (sessionIdParam : Option String)
    (req : OperationRequest) (now : String) : RouteResult :=
  match sessionIdParam with
  | none => ⟨st, some ⟨400, "Missing sessionId query parameter"⟩, false⟩
  | some sessionId =>
    if sessionId == "" then
      ⟨st, some ⟨400, "Missing sessionId query parameter"⟩, false⟩
    else
      match mapGet st.sessions sessionId with
      | none => ⟨st, some ⟨404, "Unknown session"⟩, false⟩
      | some _ =>
        let result := callToolHandler req.name req.arguments now
        ⟨⟨appendToStream st.sessions sessionId result, st.nextId⟩,
          some ⟨202, "Accepted"⟩, true⟩

/-- Embeds `const ssePath = "/mcp"` (`server.ts` line 296), as a pathname. -/
def ssePath : List Char := "/mcp".toList

/-- Embeds `const postPath = "/mcp/messages"` (`server.ts` line 297). -/
def postPath : List Char := "/mcp/messages".toList

/-- Embeds `url.pathname.replace(/\/$/, "")` (`server.ts` line 370): the
non-global regex removes at most one trailing slash. -/
def stripTrailingSlash (p : List Char) : List Char :=
  if p.getLast? = some '/' then p.dropLast else p

/-- Result of one pass through the HTTP request handler. -/
structure StepResult where
  state : ServerState
  response : Option HttpResponse

/-- The branch chain of the `httpServer` request handler (`server.ts`
lines 372-416), applied to the already-normalised `cleanPath`:
OPTIONS preflight → 204; `GET /mcp` → stream-open; `POST /mcp/messages` →
message-submit; `POST /mcp` → message-submit when a `sessionId` query
parameter is present, otherwise a 200 "OK" probe/ping answer; everything
else → 404. -/
def httpDispatch (st : ServerState) (method : Method) (cleanPath : List Char)
    (sessionIdParam : Option String) (req : OperationRequest) (now : String)
    (connectOk headersSent : Bool) : StepResult :=
  if method = Method.OPTIONS then
    ⟨st, some ⟨204, ""⟩⟩
  else if method = Method.GET ∧ cleanPath = ssePath then
    let r := handleSseRequest st connectOk headersSent
    ⟨r.state, r.response⟩
  else if method = Method.POST ∧ cleanPath = postPath then
    let r := handlePostMessage st sessionIdParam req now
    ⟨r.state, r.response⟩
  else if method = Method.POST ∧ cleanPath = ssePath then
    if sessionIdParam.isSome then
      let r := handlePostMessage st sessionIdParam req now
      ⟨r.state, r.response⟩
    else
      ⟨st, some ⟨200, "OK"⟩⟩
  else
    ⟨st, some ⟨404, "Not Found"⟩⟩

/-- The full `httpServer` request handler (`server.ts` lines 366-417):
normalise the pathname, then classify. -/
def handleRequest (st : ServerState) (method : Method) (pathname : List Char)
    (sessionIdParam : Option String) (req : OperationRequest) (now : String)
    (connectOk headersSent : Bool) : StepResult :=
  httpDispatch st method (stripTrailingSlash pathname) sessionIdParam req now
    connectOk headersSent

/-- The legacy draft's request handler (`src/unnamed/part_000`, lines
254-299, "FINAL LEGACY MODE"): same shape, but with a root/health branch
(`cleanPath === "" || cleanPath === "/"`, no method guard) answering
200 "Kitchen Sink MCP Server is online.", and a 405 "Use GET for SSE"
rejection of `POST /mcp` probes instead of the permissive 200. -/
def handleRequestLegacy (st : ServerState) (method : Method) (pathname : List Char)
    (sessionIdParam : Option String) (req : OperationRequest) (now : String)
    (connectOk headersSent : Bool) : StepResult :=
  let cleanPath := stripTrailingSlash pathname
  if method = Method.OPTIONS then
    ⟨st, some ⟨204, ""⟩⟩
  else if cleanPath = [] ∨ cleanPath = ['/'] then
    ⟨st, some ⟨200, "Kitchen Sink MCP Server is online."⟩⟩
  else if method = Method.GET ∧ cleanPath = ssePath then
    let r := handleSseRequest st connectOk headersSent
    ⟨r.state, r.response⟩
  else if method = Method.POST ∧ cleanPath = postPath then
    let r := handlePostMessage st sessionIdParam req now
    ⟨r.state, r.response⟩
  else if method = Method.POST ∧ cleanPath = ssePath then
    ⟨st, some ⟨405, "Use GET for SSE"⟩⟩
  else
    ⟨st, some ⟨404, "Not Found"⟩⟩

/-- The identifiers of the currently-registered sessions. -/
def registryIds (m : List (String × SessionRecord)) : List String :=
  m.map Prod.fst

/-- Registry well-formedness: every registered identifier came from the
fresh-identifier supply below the current counter, and no identifier is
registered twice.  Holds at `initState` and is preserved by every
handler. -/
def goodState (st : ServerState) : Prop :=
  (∀ k ∈ registryIds st.sessions, ∃ m, m < st.nextId ∧ k = genId m) ∧
    (registryIds st.sessions).Nodup

/-! ## Helper lemmas about the registry operations -/

theorem genId_inj {m n : Nat} (h : genId m = genId n) : m = n := by
  have hl : (genId m).data.length = (genId n).data.length := by rw [h]
  simpa [genId] using hl

theorem genId_ne_empty (n : Nat) : genId n ≠ "" := by
  intro h
  have hl : (genId n).data.length = ("" : String).data.length := by rw [h]
  simp [genId] at hl

theorem mapSet_fresh (m : List (String × SessionRecord)) (k : String)
    (v : SessionRecord) (h : k ∉ registryIds m) : mapSet m k v = (k, v) :: m := by
  have hany : m.any (fun p => p.1 == k) = false := by
    simp only [List.any_eq_false]
    intro p hp
    simp only [beq_iff_eq]
    intro hk
    exact h (hk ▸ List.mem_map_of_mem Prod.fst hp)
  simp [mapSet, hany]

theorem mapGet_mapDelete_self (m : List (String × SessionRecord)) (k : String) :
    mapGet (mapDelete m k) k = none := by
  induction m with
  | nil => rfl
  | cons p t ih =>
    by_cases hk : p.1 = k
    · have hb : (p.1 == k) = true := by simp [hk]
      simpa [mapDelete, hb] using ih
    · have hb : (p.1 == k) = false := by simp [hk]
      have hb' : (k == p.1) = false := by
        simp only [beq_eq_false_iff_ne]
        exact fun hkk => hk hkk.symm
      simpa [mapDelete, hb, mapGet, List.lookup, hb'] using ih

theorem mapDelete_idem (m : List (String × SessionRecord)) (k : String) :
    mapDelete (mapDelete m k) k = mapDelete m k := by
  induction m with
  | nil => rfl
  | cons p t ih =>
    by_cases hk : p.1 = k
    · have hb : (p.1 == k) = true := by simp [hk]
      simpa [mapDelete, hb] using ih
    · have hb : (p.1 == k) = false := by simp [hk]
      simpa [mapDelete, hb] using ih

theorem mapDelete_of_not_mem (m : List (String × SessionRecord)) (k : String)
    (h : k ∉ registryIds m) : mapDelete m k = m := by
  induction m with
  | nil => rfl
  | cons p t ih =>
    simp only [registryIds, List.map_cons, List.mem_cons, not_or] at h
    have ht : mapDelete t k = t := ih (by simpa [registryIds] using h.2)
    have hb : (p.1 == k) = false := by
      simp only [beq_eq_false_iff_ne]
      exact fun hk => h.1 hk.symm
    simpa [mapDelete, hb] using ht

theorem registryIds_mapDelete_sublist (m : List (String × SessionRecord)) (k : String) :
    (registryIds (mapDelete m k)).Sublist (registryIds m) := by
  induction m with
  | nil => simp [mapDelete, registryIds]
  | cons p t ih =>
    by_cases hk : p.1 = k
    · have hb : (p.1 == k) = true := by simp [hk]
      simp only [mapDelete, hb, if_true, registryIds, List.map_cons]
      exact List.Sublist.cons _ ih
    · have hb : (p.1 == k) = false := by simp [hk]
      simp only [mapDelete, hb, Bool.false_eq_true, if_false, registryIds, List.map_cons]
      exact List.Sublist.cons₂ _ ih

theorem mapGet_appendToStream_self (m : List (String × SessionRecord)) (k : String)
    (r : Except EngineError CallToolResult) :
    mapGet (appendToStream m k r) k =
      (mapGet m k).map (fun rec => ⟨rec.stream ++ [r]⟩) := by
  induction m with
  | nil => rfl
  | cons p t ih =>
    obtain ⟨a, b⟩ := p
    by_cases hk : a = k
    · subst hk
      show List.lookup a ((if a == a then (a, ⟨b.stream ++ [r]⟩) else (a, b)) ::
        appendToStream t a r) = _
      rw [if_pos (by simp : (a == a) = true)]
      simp [mapGet, List.lookup]
    · have hb : (a == k) = false := by simp [hk]
      have hb' : (k == a) = false := by
        simp only [beq_eq_false_iff_ne]
        exact fun hkk => hk hkk.symm
      show List.lookup k ((if a == k then (a, ⟨b.stream ++ [r]⟩) else (a, b)) ::
        appendToStream t k r) = _
      rw [if_neg (by simp [hb] : ¬ (a == k) = true)]
      simpa [mapGet, List.lookup, hb'] using ih

theorem registryIds_appendToStream (m : List (String × SessionRecord)) (k : String)
    (r : Except EngineError CallToolResult) :
    registryIds (appendToStream m k r) = registryIds m := by
  induction m with
  | nil => rfl
  | cons p t ih =>
    by_cases hk : p.1 = k
    · have hb : (p.1 == k) = true := by simp [hk]
      simpa [appendToStream, hb, registryIds, hk] using ih
    · have hb : (p.1 == k) = false := by simp [hk]
      simpa [appendToStream, hb, registryIds] using ih

/-! ## The registry invariant -/

theorem goodState_init : goodState initState := by
  constructor
  · intro k hk
    simp [initState, registryIds] at hk
  · simp [initState, registryIds]

/-- For a well-formed state the next generated identifier is fresh:
it differs from every currently-registered identifier. -/
theorem genId_fresh (st : ServerState) (h : goodState st) :
    genId st.nextId ∉ registryIds st.sessions := by
  intro hmem
  obtain ⟨m, hm, hk⟩ := h.1 _ hmem
  have := genId_inj hk.symm
  omega

/-- On a well-formed state, a successful stream-open prepends exactly the
new session record to the registry. -/
theorem handleSseRequest_ok_sessions (st : ServerState) (hs : Bool)
    (h : goodState st) :
    (handleSseRequest st true hs).state.sessions =
      (genId st.nextId, ⟨[]⟩) :: st.sessions := by
  simp [handleSseRequest, mapSet_fresh _ _ _ (genId_fresh st h)]

/-- On a well-formed state, a failed stream-open handshake leaves the
registry exactly as it was. -/
theorem handleSseRequest_fail_sessions (st : ServerState) (hs : Bool)
    (h : goodState st) :
    (handleSseRequest st false hs).state.sessions = st.sessions := by
  have hfresh := genId_fresh st h
  simp only [handleSseRequest, mapSet_fresh _ _ _ hfresh, Bool.false_eq_true,
    if_false]
  show mapDelete ((genId st.nextId, ⟨[]⟩) :: st.sessions) (genId st.nextId) = _
  rw [mapDelete, if_pos (by simp : (genId st.nextId == genId st.nextId) = true)]
  exact mapDelete_of_not_mem _ _ hfresh

/-- The registry invariant is preserved by stream-open, whether or not the
handshake succeeds. -/
theorem goodState_handleSseRequest (st : ServerState) (ok hs : Bool)
    (h : goodState st) : goodState (handleSseRequest st ok hs).state := by
  cases ok with
  | true =>
    rw [goodState, handleSseRequest_ok_sessions st hs h]
    have hnext : (handleSseRequest st true hs).state.nextId = st.nextId + 1 := by
      simp [handleSseRequest]
    rw [hnext]
    constructor
    · intro k hk
      simp only [registryIds, List.map_cons, List.mem_cons] at hk
      rcases hk with hk | hk
      · exact ⟨st.nextId, by omega, hk⟩
      · obtain ⟨m, hm, hkm⟩ := h.1 k hk
        exact ⟨m, by omega, hkm⟩
    · simp only [registryIds, List.map_cons, List.nodup_cons]
      exact ⟨genId_fresh st h, h.2⟩
  | false =>
    rw [goodState, handleSseRequest_fail_sessions st hs h]
    have hnext : (handleSseRequest st false hs).state.nextId = st.nextId + 1 := by
      simp [handleSseRequest]
    rw [hnext]
    constructor
    · intro k hk
      obtain ⟨m, hm, hkm⟩ := h.1 k hk
      exact ⟨m, by omega, hkm⟩
    · exact h.2

/-- The registry invariant is preserved by message-submit handling. -/
theorem goodState_handlePostMessage (st : ServerState)
    (sessionIdParam : Option String) (req : OperationRequest) (now : String)
    (h : goodState st) :
    goodState (handlePostMessage st sessionIdParam req now).state := by
  cases sessionIdParam with
  | none => exact h
  | some sid =>
    by_cases hsid : (sid == "") = true
    · simpa [handlePostMessage, hsid] using h
    · cases hlook : mapGet st.sessions sid with
      | none => simpa [handlePostMessage, hsid, hlook] using h
      | some rec =>
        have hstate : (handlePostMessage st (some sid) req now).state =
            ⟨appendToStream st.sessions sid
              (callToolHandler req.name req.arguments now), st.nextId⟩ := by
          simp [handlePostMessage, hsid, hlook]
        rw [goodState, hstate]
        constructor
        · intro k hk
          rw [registryIds_appendToStream] at hk
          exact h.1 k hk
        · rw [registryIds_appendToStream]
          exact h.2

/-- The registry invariant is preserved by stream teardown. -/
theorem goodState_closeSession (st : ServerState) (sid : String)
    (h : goodState st) : goodState (closeSession st sid) := by
  constructor
  · intro k hk
    exact h.1 k ((registryIds_mapDelete_sublist st.sessions sid).mem hk)
  · exact h.2.sublist (registryIds_mapDelete_sublist st.sessions sid)

theorem mapGet_eq_none_of_not_mem (m : List (String × SessionRecord)) (k : String)
    (h : k ∉ registryIds m) : mapGet m k = none := by
  induction m with
  | nil => rfl
  | cons p t ih =>
    simp only [registryIds, List.map_cons, List.mem_cons, not_or] at h
    have hb' : (k == p.1) = false := by
      simp only [beq_eq_false_iff_ne]
      exact h.1
    have ht := ih (by simpa [registryIds] using h.2)
    simpa [mapGet, List.lookup, hb'] using ht

/-- A concrete operation-request body used for closed evaluations. -/
def probeReq : OperationRequest := ⟨"kitchen-sink-show", none⟩

/-- Modelled from the spec's error taxonomy (§7): an "explicit rejection"
(a client error that steers the client) is a response whose status is in
the 4xx/5xx error class, never a 2xx success. -/
def isExplicitRejection (r : Option HttpResponse) : Prop :=
  ∃ resp, r = some resp ∧ 400 ≤ resp.status

/-! ## Claim theorems -/

/-- C1: a message-submit request whose (non-empty) session identifier is
not a key of the Stream Registry — including identifiers of sessions that
have since closed — fails with the 404 "Unknown session" client error, no
Protocol Engine is invoked, and the state (in particular the registry) is
unchanged, so no session is created. -/
theorem routeMessage_unknown_session (st : ServerState) (sid : String)
    (req : OperationRequest) (now : String)
    (hne : sid ≠ "") (habsent : mapGet st.sessions sid = none) :
    (handlePostMessage st (some sid) req now).response =
        some ⟨404, "Unknown session"⟩ ∧
      (handlePostMessage st (some sid) req now).engineInvoked = false ∧
      (handlePostMessage st (some sid) req now).state = st := by
  have hb : (sid == "") = false := by simp [hne]
  refine ⟨?_, ?_, ?_⟩ <;> simp [handlePostMessage, hb, habsent]

/-- Witness for C1 at a never-registered identifier "ghost". -/
theorem routeMessage_unknown_session_witness :
    ("ghost" : String) ≠ "" ∧ mapGet initState.sessions "ghost" = none ∧
      (handlePostMessage initState (some "ghost") probeReq "t").response =
        some ⟨404, "Unknown session"⟩ := by
  refine ⟨by decide, rfl, ?_⟩
  exact (routeMessage_unknown_session initState "ghost" probeReq "t"
    (by decide) rfl).1

/-- C2: a message-submit request with a missing or empty `sessionId` query
parameter fails with the 400 "Missing sessionId query parameter" client
error — an error distinct from the 404 "Unknown session" one — and no
Protocol Engine is invoked. -/
theorem routeMessage_missing_sessionId (st : ServerState) (req : OperationRequest)
    (now : String) :
    (handlePostMessage st none req now).response =
        some ⟨400, "Missing sessionId query parameter"⟩ ∧
      (handlePostMessage st none req now).engineInvoked = false ∧
      (handlePostMessage st (some "") req now).response =
        some ⟨400, "Missing sessionId query parameter"⟩ ∧
      (handlePostMessage st (some "") req now).engineInvoked = false ∧
      (⟨400, "Missing sessionId query parameter"⟩ : HttpResponse) ≠
        ⟨404, "Unknown session"⟩ := by
  refine ⟨rfl, rfl, ?_, ?_, by decide⟩ <;> simp [handlePostMessage]

/-- C3: on a well-formed state, a successful stream-open generates a
session identifier that is fresh (shared with no currently-open session),
inserts it into the Stream Registry, and preserves the registry invariant
(`goodState`), whose `Nodup` component says no two live sessions ever
share an identifier and that identifiers of open streams are never handed
out again. -/
theorem openStream_fresh_identifier (st : ServerState) (hs : Bool)
    (h : goodState st) :
    (handleSseRequest st true hs).sessionId ∉ registryIds st.sessions ∧
      mapGet (handleSseRequest st true hs).state.sessions
        (handleSseRequest st true hs).sessionId = some ⟨[]⟩ ∧
      goodState (handleSseRequest st true hs).state := by
  have hsid : (handleSseRequest st true hs).sessionId = genId st.nextId := by
    simp [handleSseRequest]
  refine ⟨?_, ?_, goodState_handleSseRequest st true hs h⟩
  · rw [hsid]
    exact genId_fresh st h
  · rw [hsid, handleSseRequest_ok_sessions st hs h]
    simp [mapGet, List.lookup]

/-- Witness for C3 at the initial (empty-registry) state. -/
theorem openStream_fresh_identifier_witness :
    goodState initState ∧
      (handleSseRequest initState true false).sessionId ∉
        registryIds initState.sessions ∧
      goodState (handleSseRequest initState true false).state := by
  have h := goodState_init
  exact ⟨h, (openStream_fresh_identifier initState false h).1,
    (openStream_fresh_identifier initState false h).2.2⟩

/-- C4: dispatch of a known operation validates the arguments against the
operation's declared shape before the handler body runs: when the required
`message` field is absent, both registered operations produce the
`InvalidArguments` failure result carrying the violated constraint
("message: Required"), and no success result is ever produced from the
unvalidated input. -/
theorem dispatch_validates_arguments (args : Json) (now : String)
    (h : args.lookup "message" = none) :
    callToolHandler "kitchen-sink-show" (some args) now =
        .error (.invalidArguments "message: Required") ∧
      callToolHandler "kitchen-sink-refresh" (some args) now =
        .error (.invalidArguments "message: Required") ∧
      ∀ r, callToolHandler "kitchen-sink-show" (some args) now ≠ .ok r := by
  have hshow : callToolHandler "kitchen-sink-show" (some args) now =
      .error (.invalidArguments "message: Required") := by
    simp [callToolHandler, showParser, parseRequiredString, h]
  refine ⟨hshow, ?_, ?_⟩
  · simp [callToolHandler, refreshParser, parseRequiredString, h]
  · intro r hr
    rw [hshow] at hr
    exact Except.noConfusion hr

/-- Witness for C4 at the empty argument object (scenario 3:
`{operation: "render", arguments: {}}`). -/
theorem dispatch_validates_arguments_witness :
    (Json.obj []).lookup "message" = none ∧
      callToolHandler "kitchen-sink-show" (some (Json.obj [])) "t" =
        .error (.invalidArguments "message: Required") := by
  exact ⟨rfl, (dispatch_validates_arguments (Json.obj []) "t" rfl).1⟩

/-- C5: a dispatch whose operation name is outside the fixed registered
set {kitchen-sink-show, kitchen-sink-refresh}, submitted to a live
session, produces the explicit `OperationNotFound` failure result appended
to the owning session's stream; the submitting connection still gets a
definite transport acknowledgment (202), so the dispatch is neither
silently ignored nor an uncaught crash. -/
theorem dispatch_unknown_operation (st : ServerState) (sid : String)
    (rec : SessionRecord) (req : OperationRequest) (now : String)
    (hne : sid ≠ "") (hlive : mapGet st.sessions sid = some rec)
    (h1 : req.name ≠ "kitchen-sink-show")
    (h2 : req.name ≠ "kitchen-sink-refresh") :
    (handlePostMessage st (some sid) req now).engineInvoked = true ∧
      (handlePostMessage st (some sid) req now).response =
        some ⟨202, "Accepted"⟩ ∧
      mapGet (handlePostMessage st (some sid) req now).state.sessions sid =
        some ⟨rec.stream ++ [.error (.operationNotFound req.name)]⟩ := by
  have hb : (sid == "") = false := by simp [hne]
  have hcall : callToolHandler req.name req.arguments now =
      .error (.operationNotFound req.name) := by
    have hb1 : (req.name == "kitchen-sink-show") = false := by simp [h1]
    have hb2 : (req.name == "kitchen-sink-refresh") = false := by simp [h2]
    simp [callToolHandler, hb1, hb2]
  refine ⟨?_, ?_, ?_⟩ <;>
    simp [handlePostMessage, hb, hlive, hcall, mapGet_appendToStream_self]

/-- Witness for C5: open a stream on the initial state, then submit the
unregistered operation name "no-such-tool" to the returned session. -/
theorem dispatch_unknown_operation_witness :
    genId 0 ≠ "" ∧
      mapGet (handleSseRequest initState true false).state.sessions (genId 0) =
        some ⟨[]⟩ ∧
      ("no-such-tool" : String) ≠ "kitchen-sink-show" ∧
      ("no-such-tool" : String) ≠ "kitchen-sink-refresh" ∧
      mapGet (handlePostMessage (handleSseRequest initState true false).state
          (some (genId 0)) ⟨"no-such-tool", none⟩ "t").state.sessions (genId 0) =
        some ⟨[.error (.operationNotFound "no-such-tool")]⟩ := by
  refine ⟨by decide, rfl, by decide, by decide, ?_⟩
  exact (dispatch_unknown_operation (handleSseRequest initState true false).state
    (genId 0) ⟨[]⟩ ⟨"no-such-tool", none⟩ "t" (by decide) rfl (by decide)
    (by decide)).2.2

/-- C6: when the stream-open handshake fails (the connection to the
protocol engine cannot be established, headers not yet written), the
just-inserted registry entry is deleted again: the registry is exactly
what it was before the attempt, there is no entry for the attempted
session identifier, and the failure is surfaced synchronously as a 500
error response on the opening connection. -/
theorem openStream_failure_no_partial_state (st : ServerState)
    (h : goodState st) :
    (handleSseRequest st false false).state.sessions = st.sessions ∧
      (handleSseRequest st false false).response =
        some ⟨500, "Failed to establish SSE connection"⟩ ∧
      mapGet (handleSseRequest st false false).state.sessions
        (handleSseRequest st false false).sessionId = none := by
  have hsessions := handleSseRequest_fail_sessions st false h
  have hsid : (handleSseRequest st false false).sessionId = genId st.nextId := by
    simp [handleSseRequest]
  refine ⟨hsessions, ?_, ?_⟩
  · simp [handleSseRequest]
  · rw [hsessions, hsid]
    exact mapGet_eq_none_of_not_mem _ _ (genId_fresh st h)

/-- Witness for C6 at the initial state. -/
theorem openStream_failure_no_partial_state_witness :
    goodState initState ∧
      (handleSseRequest initState false false).state.sessions =
        initState.sessions ∧
      (handleSseRequest initState false false).response =
        some ⟨500, "Failed to establish SSE connection"⟩ := by
  have h := goodState_init
  exact ⟨h, (openStream_failure_no_partial_state initState h).1,
    (openStream_failure_no_partial_state initState h).2.1⟩

/-- C7: stream teardown is idempotent — the close handler is a total
function whose registry-deletion side effect happens only on the first
close (a second close leaves the state fixed), and after a close of
session `sid` every subsequent message-submit lookup for `sid` fails with
the 404 "Unknown session" error, invoking no engine and changing no
state. -/
theorem teardown_idempotent (st : ServerState) (sid : String)
    (req : OperationRequest) (now : String) (hne : sid ≠ "") :
    closeSession (closeSession st sid) sid = closeSession st sid ∧
      (handlePostMessage (closeSession st sid) (some sid) req now).response =
        some ⟨404, "Unknown session"⟩ ∧
      (handlePostMessage (closeSession st sid) (some sid) req now).engineInvoked
        = false ∧
      (handlePostMessage (closeSession st sid) (some sid) req now).state =
        closeSession st sid := by
  have hnone : mapGet (closeSession st sid).sessions sid = none :=
    mapGet_mapDelete_self st.sessions sid
  have hb : (sid == "") = false := by simp [hne]
  refine ⟨?_, ?_, ?_, ?_⟩
  · show (⟨mapDelete (mapDelete st.sessions sid) sid, st.nextId⟩ : ServerState) = _
    rw [mapDelete_idem]
    rfl
  all_goals simp [handlePostMessage, hb, hnone]

/-- Witness for C7: open a stream on the initial state, close it, submit
to the closed identifier. -/
theorem teardown_idempotent_witness :
    genId 0 ≠ "" ∧
      (handlePostMessage
          (closeSession (handleSseRequest initState true false).state (genId 0))
          (some (genId 0)) probeReq "t").response =
        some ⟨404, "Unknown session"⟩ := by
  refine ⟨by decide, ?_⟩
  exact (teardown_idempotent (handleSseRequest initState true false).state
    (genId 0) probeReq "t" (by decide)).2.1

/-- C8 counterexample: a POST to the stream-open path `/mcp` with no
`sessionId` query parameter is answered with 200 "OK" — a permissive
success, not an explicit rejection in the 4xx/5xx error class as the
claim requires. -/
theorem postProbe_not_rejected :
    (handleRequest initState .POST ("/mcp".toList) none probeReq "t"
        true false).response = some ⟨200, "OK"⟩ ∧
      ¬ isExplicitRejection (handleRequest initState .POST ("/mcp".toList) none
        probeReq "t" true false).response := by
  have h200 : (handleRequest initState .POST ("/mcp".toList) none probeReq "t"
      true false).response = some ⟨200, "OK"⟩ := by rfl
  refine ⟨h200, ?_⟩
  rintro ⟨resp, heq, hge⟩
  rw [h200] at heq
  cases Option.some.inj heq
  simp at hge

/-- C8 amended: a POST probe on the stream-open path without a `sessionId`
query parameter receives the permissive 200 "OK" success (the dispatcher
deliberately treats it as a ping), leaving the state unchanged; when a
`sessionId` parameter is present the request is instead routed to the
message handler. -/
theorem postProbe_permissive_ok (st : ServerState) (req : OperationRequest)
    (now : String) (ok hs : Bool) (sid : String) :
    handleRequest st .POST ("/mcp".toList) none req now ok hs =
        ⟨st, some ⟨200, "OK"⟩⟩ ∧
      handleRequest st .POST ("/mcp".toList) (some sid) req now ok hs =
        ⟨(handlePostMessage st (some sid) req now).state,
          (handlePostMessage st (some sid) req now).response⟩ := by
  exact ⟨rfl, rfl⟩

/-- C9: the canonical dispatcher (`server.ts`) has no root/health branch:
a GET of the root path "/" (or of the empty normalised path) falls through
to the 404 "Not Found" branch, diverging from the spec's always-succeeding
liveness probe — which the legacy draft dispatcher (`src/unnamed/part_000`)
does implement, answering 200 with fixed liveness text. -/
theorem rootPath_not_found :
    (handleRequest initState .GET ("/".toList) none probeReq "t"
        true false).response = some ⟨404, "Not Found"⟩ ∧
      (handleRequest initState .GET ("".toList) none probeReq "t"
        true false).response = some ⟨404, "Not Found"⟩ ∧
      (handleRequestLegacy initState .GET ("/".toList) none probeReq "t"
        true false).response =
        some ⟨200, "Kitchen Sink MCP Server is online."⟩ := by
  exact ⟨rfl, rfl, rfl⟩

/-- C10: the dispatcher normalises the pathname by stripping at most one
trailing slash before classification, so any path with a single trailing
slash is handled exactly like the path without it, while a second trailing
slash survives the normalisation. -/
theorem trailing_slash_single_strip (st : ServerState) (method : Method)
    (p : List Char) (sessionIdParam : Option String) (req : OperationRequest)
    (now : String) (ok hs : Bool) (h : p.getLast? ≠ some '/') :
    handleRequest st method (p ++ ['/']) sessionIdParam req now ok hs =
        handleRequest st method p sessionIdParam req now ok hs ∧
      stripTrailingSlash (p ++ ['/', '/']) = p ++ ['/'] := by
  constructor
  · have h1 : stripTrailingSlash (p ++ ['/']) = p := by
      rw [stripTrailingSlash, if_pos (by rw [List.getLast?_concat])]
      exact List.dropLast_concat
    have h2 : stripTrailingSlash p = p := by
      rw [stripTrailingSlash, if_neg h]
    rw [handleRequest, handleRequest, h1, h2]
  · have hsplit : p ++ ['/', '/'] = (p ++ ['/']) ++ ['/'] := by simp
    rw [hsplit, stripTrailingSlash, if_pos (by rw [List.getLast?_concat])]
    exact List.dropLast_concat

/-- Witness for C10 on the stream-open path: "/mcp/" is handled exactly
like "/mcp". -/
theorem trailing_slash_single_strip_witness :
    ("/mcp".toList.getLast? ≠ some '/') ∧
      handleRequest initState .GET ("/mcp".toList ++ ['/']) none probeReq "t"
          true false =
        handleRequest initState .GET ("/mcp".toList) none probeReq "t"
          true false := by
  refine ⟨by decide, ?_⟩
  exact (trailing_slash_single_strip initState .GET ("/mcp".toList) none probeReq
    "t" true false (by decide)).1

/-- The legacy draft dispatcher rejects a POST probe on the stream-open
path with the explicit 405 "Use GET for SSE" rejection, the behavior the
spec describes for branch 5 (context for C8's divergence). -/
theorem legacy_postProbe_rejected (st : ServerState) (req : OperationRequest)
    (now : String) (ok hs : Bool) (sessionIdParam : Option String) :
    handleRequestLegacy st .POST ("/mcp".toList) sessionIdParam req now ok hs =
      ⟨st, some ⟨405, "Use GET for SSE"⟩⟩ := by
  rfl

/-- The legacy draft dispatcher answers the root/health path with the
fixed liveness text regardless of the registry contents and of the request
method (context for C9's divergence). -/
theorem legacy_health_always_ok (st : ServerState) (method : Method)
    (req : OperationRequest) (now : String) (ok hs : Bool)
    (sessionIdParam : Option String) (hm : method ≠ Method.OPTIONS) :
    handleRequestLegacy st method ("/".toList) sessionIdParam req now ok hs =
      ⟨st, some ⟨200, "Kitchen Sink MCP Server is online."⟩⟩ := by
  have hstrip : stripTrailingSlash ("/".toList) = [] := by decide
  rw [handleRequestLegacy]
  simp only [hstrip]
  rw [if_neg hm]
  simp

end KitchenSink
